import Mathlib

/-
  Verification development for the diagnostic-rendering core in
  occa/lang/codes.{hpp,cpp} (codeSource_t, codePrinter_t).

  Shallow embedding notes:
  - file_t* identity is modelled as a Nat file identifier (the spec's design
    note replaces identity-pointer comparison with a stable explicit id).
  - std::set<codeSource_t> is keyed by operator<.  As written, operator< is
    declared bool but returns the three-way values -1/0/1, so C++ converts
    both -1 and 1 to true; it is therefore not a strict weak order (see the
    claim-C1 theorem below) and std::set's behaviour with it is undefined.
    The container is modelled as a list ordered by the comparator's intended
    three-way key (file id, position start offset, insertion index), with
    std::set's ignore-an-equivalent-element insertion; the bucket-level
    properties proved below depend only on bucket sizes, prefixes and
    membership, not on the internal ordering.
  - std::map<file_t*, codeSourceSet> is modelled as an association list
    sorted by file id (std::map iterates in key order).
  - OCCA_ERROR raises; codePrinter_t::print is modelled in Except.
-/

/-- Source position: byte start offset and line number (filePosition's other
fields — end offset and line-start pointer — are not read by the embedded
operations). -/
structure FilePosition where
  start : Nat
  line : Nat
  deriving DecidableEq

/-- Origin of a token: file identity plus position.  `valid` models
fileOrigin::isValid (declared in occa/lang/file.hpp, outside src/): a
default-constructed origin is invalid, one pointing at a real file is valid. -/
structure FileOrigin where
  file : Nat
  position : FilePosition
  valid : Bool
  deriving DecidableEq

/-- Modelled from the spec: fileOrigin::onSameLine is declared in
occa/lang/file.hpp, which is not part of src/.  Per the spec a reference is
an origin-line reference when "its file equals the primary origin's file and
it shares the same line"; the file test is done separately by the caller, so
onSameLine compares line numbers. -/
def onSameLine (a b : FileOrigin) : Bool :=
  a.position.line == b.position.line

/-- Modelled from the spec: fileOrigin::distanceTo is declared in
occa/lang/file.hpp, which is not part of src/.  Per the spec (divider rule),
the divider check uses "a distance comparison between the primary origin and
every other reference sharing its file": the comparison is positive exactly
when the other reference lies before this origin inside the same file. -/
def distanceTo (o s : FileOrigin) : Int :=
  if o.file == s.file && s.position.start < o.position.start then
    (o.position.start : Int) - (s.position.start : Int)
  else
    0

/-- codeSource_t: insertion index, origin and attached message. -/
structure CodeSource_t where
  index : Int
  origin : FileOrigin
  message : String
  deriving DecidableEq

/-- codeSource_t one-argument constructor: the index starts at -1. -/
def mkCodeSource (origin : FileOrigin) (message : String) : CodeSource_t :=
  { index := -1, origin := origin, message := message }

/-- codeSource_t::withIndex. -/
def CodeSource_t.withIndex (s : CodeSource_t) (i : Int) : CodeSource_t :=
  { index := i, origin := s.origin, message := s.message }

/-- The body of operator<(codeSource_t, codeSource_t) in codes.cpp: a
three-way comparison returning -1/0/1 on (file, position.start, index). -/
def codeSourceCompare (a b : CodeSource_t) : Int :=
  if a.origin.file == b.origin.file then
    if a.origin.position.start < b.origin.position.start then -1
    else if a.origin.position.start > b.origin.position.start then 1
    else if a.index < b.index then -1
    else if a.index > b.index then 1
    else 0
  else
    if a.origin.file < b.origin.file then -1
    else if a.origin.file > b.origin.file then 1
    else 0

/-- operator< is declared to return bool, so C++ converts the three-way
result: both -1 and 1 convert to true, 0 converts to false. -/
def codeSourceLt (a b : CodeSource_t) : Bool :=
  codeSourceCompare a b != 0

/-- The strict order operator< was evidently meant to compute:
lexicographic on (file id, start offset, insertion index). -/
def keyLt (a b : CodeSource_t) : Bool :=
  a.origin.file < b.origin.file ||
    (a.origin.file == b.origin.file &&
      (a.origin.position.start < b.origin.position.start ||
        (a.origin.position.start == b.origin.position.start && a.index < b.index)))

/-- Equivalence induced by the comparator: codeSourceCompare a b = 0, i.e.
equality of the (file id, start offset, insertion index) key. -/
def keyEq (a b : CodeSource_t) : Bool :=
  a.origin.file == b.origin.file &&
    a.origin.position.start == b.origin.position.start &&
    a.index == b.index

/-- std::set insertion: place the element at its ordered position, doing
nothing when an equivalent element is already present. -/
def csInsert (s : CodeSource_t) : List CodeSource_t → List CodeSource_t
  | [] => [s]
  | x :: xs =>
    if keyLt s x then s :: x :: xs
    else if keyEq s x then x :: xs
    else x :: csInsert s xs

/-- fileCodeSourceMap: std::map<file_t*, codeSourceSet> as an association
list sorted by file id. -/
abbrev FileSourceMap := List (Nat × List CodeSource_t)

/-- std::map insertion at key `f` combined with set insertion of `s` into
the bucket (codes.cpp writes sources[file].insert(source)). -/
def mapInsert (f : Nat) (s : CodeSource_t) : FileSourceMap → FileSourceMap
  | [] => [(f, [s])]
  | (g, b) :: rest =>
    if f < g then (f, [s]) :: (g, b) :: rest
    else if f == g then (g, csInsert s b) :: rest
    else (g, b) :: mapInsert f s rest

/-- Bucket lookup; an absent key reads as the empty bucket (operator[] on
std::map default-constructs an empty set, which carries no information the
modelled values depend on). -/
def lookupBucket (m : FileSourceMap) (f : Nat) : List CodeSource_t :=
  match m with
  | [] => []
  | (g, b) :: rest => if g == f then b else lookupBucket rest f

/-- Total number of references across all buckets of the map. -/
def bucketTotal : FileSourceMap → Nat
  | [] => 0
  | fb :: rest => fb.2.length + bucketTotal rest

/-- DEFAULT_MAX_ERRORS_DISPLAYED in codes.cpp. -/
def DEFAULT_MAX_ERRORS_DISPLAYED : Nat := 5

/-- codePrinter_t state. -/
structure CodePrinter_t where
  isError : Bool
  code : String
  origin : FileOrigin
  message : String
  originLineSources : List CodeSource_t
  sources : FileSourceMap
  sourceIndex : Int
  deriving DecidableEq

/-- codePrinter_t constructor: empty reference sets, sourceIndex 0, and a
default-constructed (invalid) origin. -/
def codePrinter (isError_ : Bool) (code_ : String) : CodePrinter_t :=
  { isError := isError_
    code := code_
    origin := { file := 0, position := { start := 0, line := 0 }, valid := false }
    message := ""
    originLineSources := []
    sources := []
    sourceIndex := 0 }

/-- errorCode helper. -/
def errorCode (code : String) : CodePrinter_t :=
  codePrinter true code

/-- warningCode helper. -/
def warningCode (code : String) : CodePrinter_t :=
  codePrinter false code

/-- codePrinter_t::withMessage: set the primary origin and headline message. -/
def CodePrinter_t.withMessage (p : CodePrinter_t) (origin_ : FileOrigin)
    (message_ : String) : CodePrinter_t :=
  { p with origin := origin_, message := message_ }

/-- codePrinter_t::withSource: stamp the next insertion index, then route the
reference into originLineSources when it is on the primary origin's file and
line, and into the per-file map otherwise. -/
def CodePrinter_t.withSource (p : CodePrinter_t) (source : CodeSource_t) :
    CodePrinter_t :=
  if source.origin.file == p.origin.file && onSameLine source.origin p.origin then
    { p with
        originLineSources :=
          csInsert (source.withIndex p.sourceIndex) p.originLineSources
        sourceIndex := p.sourceIndex + 1 }
  else
    { p with
        sources :=
          mapInsert source.origin.file (source.withIndex p.sourceIndex) p.sources
        sourceIndex := p.sourceIndex + 1 }

/-- The loop of codePrinter_t::supressSources over the per-file map.
Faithfulness notes: the C++ branches test sourcesAvailable >= count and
sourcesAvailable < count, which are exhaustive, so the final `else` branch
(supressedCount += fileSourceCount) is unreachable; supressedCount is 0 on
entry to the truncation branch, so its assignment there is the returned
value; truncation keeps the first sourcesAvailable elements in set order and
sources.erase(it, end) removes every later map entry, ending the loop;
sourcesAvailable starts at 5 and is only decreased while it stays
non-negative, so Nat models the C++ int. -/
def supressLoop (sourcesAvailable : Nat) (m : FileSourceMap) :
    FileSourceMap × Nat :=
  match m with
  | [] => ([], 0)
  | (f, fileSources) :: rest =>
    if fileSources.length ≤ sourcesAvailable then
      let r := supressLoop (sourcesAvailable - fileSources.length) rest
      ((f, fileSources) :: r.1, r.2)
    else
      ([(f, fileSources.take sourcesAvailable)],
        fileSources.length - sourcesAvailable)

/-- codePrinter_t::supressSources: trim the per-file map to the display
budget and return the new state together with the supressed count. -/
def CodePrinter_t.supressSources (p : CodePrinter_t) : CodePrinter_t × Nat :=
  let r := supressLoop DEFAULT_MAX_ERRORS_DISPLAYED p.sources
  ({ p with sources := r.1 }, r.2)

/-- codePrinter_t::getSupressedMessage.  The yellow(...) styling wrapper is
an external collaborator the spec declares purely cosmetic; the modelled
value is the string handed to it. -/
def CodePrinter_t.getSupressedMessage (p : CodePrinter_t)
    (supressedCount : Int) : String :=
  if supressedCount ≤ 0 then ""
  else
    "Supressed " ++ toString supressedCount ++ " additional " ++
      (if supressedCount > 1 then (if p.isError then "errors" else "warnings")
       else (if p.isError then "error" else "warning"))

/-- The while loop of codePrinter_t::getSidebarWidth: increment the width
once per remaining decimal digit of `line`. -/
def sidebarLoop (width line : Nat) : Nat :=
  if h : line = 0 then width
  else sidebarLoop (width + 1) (line / 10)
termination_by line
decreasing_by
  exact Nat.div_lt_self (Nat.pos_of_ne_zero h) (by norm_num)

/-- codePrinter_t::getSidebarWidth: base width 3 (left padding 1, one digit,
right padding 1) plus the loop over maxLine / 10. -/
def getSidebarWidth (maxLine : Nat) : Nat :=
  sidebarLoop 3 (maxLine / 10)

/-- Number of decimal digits of a positive number (0 for 0); the spec-side
measure for the sidebar-width refinement claim. -/
def decimalDigitCount (n : Nat) : Nat :=
  if h : n = 0 then 0
  else 1 + decimalDigitCount (n / 10)
termination_by n
decreasing_by
  exact Nat.div_lt_self (Nat.pos_of_ne_zero h) (by norm_num)

/-- The originIsFirstSource loop of codePrinter_t::addOriginFileSection:
walk the origin file's bucket and clear the flag for any reference that is
not on the origin's line and lies at positive distance (before the origin). -/
def originFirstCheck (o : FileOrigin) (l : List CodeSource_t) (acc : Bool) :
    Bool :=
  match l with
  | [] => acc
  | s :: rest =>
    originFirstCheck o rest
      (if onSameLine s.origin o = false ∧ distanceTo o s.origin > 0 then false
       else acc)

/-- originIsFirstSource as computed by addOriginFileSection over
sources[origin.file]. -/
def CodePrinter_t.originIsFirstSource (p : CodePrinter_t) : Bool :=
  originFirstCheck p.origin (lookupBucket p.sources p.origin.file) true

/-- needsDivider in codePrinter_t::addOriginFileSection:
!originIsFirstSource && hasOriginSources && hasFileSources, where the two
has-flags are C++ int-to-bool conversions of the set sizes. -/
def CodePrinter_t.needsDivider (p : CodePrinter_t) : Bool :=
  !p.originIsFirstSource &&
    !p.originLineSources.isEmpty &&
    !(lookupBucket p.sources p.origin.file).isEmpty

/-- codePrinter_t::print up to the hand-off to the external sink: the
OCCA_ERROR guard on origin.isValid() raises before anything else runs (it is
the only raise in codes.cpp); on a valid origin, suppression runs and the
trimmed state plus supressed count feed the section rendering, which builds
strings through external collaborators and raises nothing. -/
def CodePrinter_t.print (p : CodePrinter_t) :
    Except String (CodePrinter_t × Nat) :=
  if !p.origin.valid then
    Except.error
      ((if p.isError then "Error" else "Warning") ++ " code is missing its origin")
  else
    Except.ok p.supressSources

/-- Reference with insertion index 0 at file 0, start offset 1 (concrete
input for the claim-C1 comparison). -/
def sampleA : CodeSource_t := ⟨0, ⟨0, ⟨1, 1⟩, true⟩, ""⟩

/-- Reference with insertion index 1 at file 0, start offset 2 (concrete
input for the claim-C1 comparison). -/
def sampleB : CodeSource_t := ⟨1, ⟨0, ⟨2, 1⟩, true⟩, ""⟩

/-- Fresh reference at file `f`, start offset `st`, line `ln`, as built by
the one-argument codeSource_t constructor. -/
def mkSource (f st ln : Nat) : CodeSource_t :=
  mkCodeSource ⟨f, ⟨st, ln⟩, true⟩ ""

/-- Error report with origin on file 0 line 1 and non-origin file buckets of
sizes 2, 4 and 4 (files 1, 2 and 3), inserted through withSource. -/
def threeFilePrinter : CodePrinter_t :=
  (errorCode "E100").withMessage ⟨0, ⟨100, 1⟩, true⟩ "boom"
    |>.withSource (mkSource 1 10 2) |>.withSource (mkSource 1 20 3)
    |>.withSource (mkSource 2 10 2) |>.withSource (mkSource 2 20 3)
    |>.withSource (mkSource 2 30 4) |>.withSource (mkSource 2 40 5)
    |>.withSource (mkSource 3 10 2) |>.withSource (mkSource 3 20 3)
    |>.withSource (mkSource 3 30 4) |>.withSource (mkSource 3 40 5)

/-- Error report with origin on file 0 line 1 and seven references on the
origin's own file on other lines, so they all land in the per-file map under
the origin's file. -/
def originBucketPrinter : CodePrinter_t :=
  (errorCode "E101").withMessage ⟨0, ⟨100, 1⟩, true⟩ "boom"
    |>.withSource (mkSource 0 110 2) |>.withSource (mkSource 0 120 3)
    |>.withSource (mkSource 0 130 4) |>.withSource (mkSource 0 140 5)
    |>.withSource (mkSource 0 150 6) |>.withSource (mkSource 0 160 7)
    |>.withSource (mkSource 0 170 8)

/-- Error report whose origin sits at offset 100 on line 5 of file 0, with a
single same-file reference on line 2 at offset 10 — before the origin and on
another line — and no origin-line references at all. -/
def dividerPrinter : CodePrinter_t :=
  (errorCode "E102").withMessage ⟨0, ⟨100, 5⟩, true⟩ "boom"
    |>.withSource (mkSource 0 10 2)

/-- Error report with six references on the origin's own line, all routed to
the origin-line set. -/
def originLinePrinter : CodePrinter_t :=
  (errorCode "E103").withMessage ⟨0, ⟨100, 1⟩, true⟩ "boom"
    |>.withSource (mkSource 0 10 1) |>.withSource (mkSource 0 20 1)
    |>.withSource (mkSource 0 30 1) |>.withSource (mkSource 0 40 1)
    |>.withSource (mkSource 0 50 1) |>.withSource (mkSource 0 60 1)

/-- Freshly primed printer for the routing witness: origin at file 0,
offset 50, line 3, both reference sets still empty. -/
def routedPrinter : CodePrinter_t :=
  (errorCode "E104").withMessage ⟨0, ⟨50, 3⟩, true⟩ "boom"

/-- Reference on the routing witness's origin file and line. -/
def routedSource : CodeSource_t :=
  mkCodeSource ⟨0, ⟨40, 3⟩, true⟩ "ref"

/-- All insertion indices stamped so far are below the printer's counter;
established by construction since withSource stamps sourceIndex++ on every
inserted reference. -/
def indexBounded (p : CodePrinter_t) : Prop :=
  (∀ s ∈ p.originLineSources, s.index < p.sourceIndex) ∧
  (∀ fb ∈ p.sources, ∀ s ∈ fb.2, s.index < p.sourceIndex)

/-- No reference appears both in the origin-line set and in a bucket of the
per-file map. -/
def setsDisjoint (p : CodePrinter_t) : Prop :=
  ∀ s ∈ p.originLineSources, ∀ fb ∈ p.sources, s ∉ fb.2

/-- Everything kept by the suppression loop fits in the budget it was given:
full buckets consume exactly their size and a truncated bucket consumes the
remaining budget while ending the map. -/
theorem bucketTotal_supressLoop_le (a : Nat) (m : FileSourceMap) :
    bucketTotal (supressLoop a m).1 ≤ a := by
  induction m generalizing a with
  | nil => simp [supressLoop, bucketTotal]
  | cons fb rest ih =>
    obtain ⟨f, b⟩ := fb
    simp only [supressLoop]
    split
    · have h := ih (a - b.length)
      simp only [bucketTotal]
      omega
    · simp only [bucketTotal, List.length_take]
      omega

/-- A map already within the budget passes through the suppression loop
unchanged with a zero count. -/
theorem supressLoop_eq_self_of_le (a : Nat) (m : FileSourceMap)
    (h : bucketTotal m ≤ a) : supressLoop a m = (m, 0) := by
  induction m generalizing a with
  | nil => simp [supressLoop]
  | cons fb rest ih =>
    obtain ⟨f, b⟩ := fb
    simp only [bucketTotal] at h
    simp only [supressLoop]
    rw [if_pos (by omega)]
    rw [ih (a - b.length) (by omega)]

/-- The sidebar while-loop adds one to the width per decimal digit of its
second argument. -/
theorem sidebarLoop_eq_add (n : Nat) :
    ∀ w, sidebarLoop w n = w + decimalDigitCount n := by
  induction n using Nat.strong_induction_on with
  | _ n ih =>
    intro w
    by_cases h : n = 0
    · subst h
      rw [sidebarLoop, decimalDigitCount]
      simp
    · rw [sidebarLoop, decimalDigitCount]
      rw [dif_neg h, dif_neg h]
      rw [ih (n / 10) (Nat.div_lt_self (Nat.pos_of_ne_zero h) (by norm_num))]
      omega

/-- Unfolding of the digit count on positive input. -/
theorem decimalDigitCount_pos_eq (n : Nat) (h : 0 < n) :
    decimalDigitCount n = 1 + decimalDigitCount (n / 10) := by
  rw [decimalDigitCount, dif_neg (Nat.pos_iff_ne_zero.mp h)]

/-- The originIsFirstSource accumulator ends false exactly when it started
false or some bucket reference off the origin's line lies at positive
distance before the origin. -/
theorem originFirstCheck_eq_false_iff (o : FileOrigin) (l : List CodeSource_t) :
    ∀ acc, originFirstCheck o l acc = false ↔
      (acc = false ∨
        ∃ s ∈ l, onSameLine s.origin o = false ∧ distanceTo o s.origin > 0) := by
  induction l with
  | nil => intro acc; simp [originFirstCheck]
  | cons s rest ih =>
    intro acc
    simp only [originFirstCheck]
    rw [ih]
    by_cases hc : onSameLine s.origin o = false ∧ distanceTo o s.origin > 0
    · rw [if_pos hc]
      simp only [List.mem_cons]
      constructor
      · intro _; right; exact ⟨s, Or.inl rfl, hc⟩
      · intro _; left; trivial
    · rw [if_neg hc]
      simp only [List.mem_cons]
      constructor
      · rintro (h | ⟨x, hx, hx2⟩)
        · exact Or.inl h
        · exact Or.inr ⟨x, Or.inr hx, hx2⟩
      · rintro (h | ⟨x, hx | hx, hx2⟩)
        · exact Or.inl h
        · subst hx; exact absurd hx2 hc
        · exact Or.inr ⟨x, hx, hx2⟩

/-- Set insertion adds no element other than the inserted one. -/
theorem mem_csInsert {x s : CodeSource_t} {l : List CodeSource_t}
    (h : x ∈ csInsert s l) : x = s ∨ x ∈ l := by
  induction l with
  | nil => simpa [csInsert] using h
  | cons y ys ih =>
    simp only [csInsert] at h
    split at h
    · simpa using h
    · split at h
      · exact Or.inr h
      · rcases List.mem_cons.mp h with h1 | h1
        · exact Or.inr (List.mem_cons.mpr (Or.inl h1))
        · rcases ih h1 with h2 | h2
          · exact Or.inl h2
          · exact Or.inr (List.mem_cons.mpr (Or.inr h2))

/-- References with different insertion indices are never comparator
equivalent. -/
theorem keyEq_eq_false_of_index_ne {a b : CodeSource_t}
    (h : a.index ≠ b.index) : keyEq a b = false := by
  simp only [keyEq, Bool.and_eq_false_iff]
  right
  simpa using h

/-- Insertion of an element with no equivalent already present really places
it in the set. -/
theorem self_mem_csInsert {s : CodeSource_t} {l : List CodeSource_t}
    (h : ∀ y ∈ l, keyEq s y = false) : s ∈ csInsert s l := by
  induction l with
  | nil => simp [csInsert]
  | cons y ys ih =>
    by_cases hk : keyLt s y = true
    · simp [csInsert, hk]
    · have he : keyEq s y = false := h y (List.mem_cons_self y ys)
      simp only [csInsert]
      rw [if_neg hk, if_neg (by simp [he])]
      exact List.mem_cons.mpr
        (Or.inr (ih (fun z hz => h z (List.mem_cons.mpr (Or.inr hz)))))

/-- Map insertion adds no reference other than the inserted one: any member
of any bucket of the updated map is the new reference or was already in a
bucket. -/
theorem mem_mapInsert {f : Nat} {s x : CodeSource_t} {m : FileSourceMap}
    {fb : Nat × List CodeSource_t} (hfb : fb ∈ mapInsert f s m)
    (hx : x ∈ fb.2) : x = s ∨ ∃ fb' ∈ m, x ∈ fb'.2 := by
  induction m with
  | nil =>
    simp only [mapInsert, List.mem_singleton] at hfb
    subst hfb
    simp only [List.mem_singleton] at hx
    exact Or.inl hx
  | cons gb rest ih =>
    obtain ⟨g, b⟩ := gb
    simp only [mapInsert] at hfb
    split at hfb
    · rcases List.mem_cons.mp hfb with h1 | h1
      · subst h1
        simp only [List.mem_singleton] at hx
        exact Or.inl hx
      · exact Or.inr ⟨fb, h1, hx⟩
    · split at hfb
      · rcases List.mem_cons.mp hfb with h1 | h1
        · subst h1
          rcases mem_csInsert hx with h2 | h2
          · exact Or.inl h2
          · exact Or.inr ⟨(g, b), List.mem_cons_self _ _, h2⟩
        · exact Or.inr ⟨fb, List.mem_cons.mpr (Or.inr h1), hx⟩
      · rcases List.mem_cons.mp hfb with h1 | h1
        · subst h1
          exact Or.inr ⟨(g, b), List.mem_cons_self _ _, hx⟩
        · rcases ih h1 with h2 | ⟨fb', hfb', hx'⟩
          · exact Or.inl h2
          · exact Or.inr ⟨fb', List.mem_cons.mpr (Or.inr hfb'), hx'⟩

/-- Claim C1 (code bug): operator< on codeSource_t is meant to be the strict
lexicographic order on (file identity, start offset, insertion index) — the
key order keyLt — but the function is declared bool while its body returns
the three-way values -1/0/1, and C++ converts both -1 and 1 to true.  At the
concrete pair below the intended key order puts sampleA strictly before
sampleB, yet the comparison holds in both directions, so it is not
asymmetric, hence not a strict total order, and iterating a std::set keyed
by it cannot be relied on to yield references sorted by (file, offset,
insertion index). -/
theorem codeSourceLt_not_strict_order :
    keyLt sampleA sampleB = true ∧ keyLt sampleB sampleA = false ∧
    codeSourceLt sampleA sampleB = true ∧ codeSourceLt sampleB sampleA = true := by
  decide

/-- Claim C2 (code bug): supressSources is supposed to return the total
number of dropped references, summed across all file buckets including the
buckets erased whole after the budget is exhausted.  On a per-file map with
non-origin buckets of sizes 2, 4 and 4 under budget 5, the embedded loop
returns 1 — only the drop inside the bucket where the budget ran out — while
the kept map lost 5 references: the third bucket is erased without being
counted (the branch that would count it is unreachable). -/
theorem supressSources_count_at_failing_input :
    (threeFilePrinter.supressSources).2 = 1 ∧
    bucketTotal threeFilePrinter.sources -
      bucketTotal ((threeFilePrinter.supressSources).1.sources) = 5 := by
  decide

/-- Claim C3 counterexample: a printer whose per-file map holds a bucket of
7 references for the origin's own file has that bucket truncated to 5 by
supressSources, so the suppression step does not leave the origin file's
bucket whole. -/
theorem supressSources_truncates_origin_bucket :
    originBucketPrinter.origin.file = 0 ∧
    (lookupBucket originBucketPrinter.sources originBucketPrinter.origin.file).length = 7 ∧
    (lookupBucket ((originBucketPrinter.supressSources).1.sources)
        originBucketPrinter.origin.file).length = 5 := by
  decide

/-- Claim C3 (corrected): the suppression step does not special-case the
primary origin's file — it reads only the per-file map and never the origin,
applying the budget to every bucket in file order, so the origin file's
bucket (when present in the map) consumes budget and can be truncated like
any other.  Formally, both the trimmed map and the supressed count are
invariant under replacing the primary origin. -/
theorem supressSources_ignores_origin (p : CodePrinter_t) (o : FileOrigin) :
    ({ p with origin := o }).supressSources.1.sources =
        p.supressSources.1.sources ∧
    ({ p with origin := o }).supressSources.2 = p.supressSources.2 := by
  constructor <;> rfl

/-- Claim C4 counterexample: at dropped count 2 on an error report the
footer is not the claimed "Suppressed 2 additional errors": the code spells
the first word "Supressed". -/
theorem getSupressedMessage_not_suppressed_spelling :
    (errorCode "E").getSupressedMessage 2 ≠ "Suppressed 2 additional errors" := by
  decide

/-- Claim C4 (corrected): for every positive dropped count N the footer is
"Supressed N additional error(s)" or "...warning(s)" — with the code's
spelling "Supressed" — where the noun follows the report's severity flag and
is pluralized exactly when N > 1. -/
theorem getSupressedMessage_format (p : CodePrinter_t) (n : Int) (h : 0 < n) :
    p.getSupressedMessage n =
      "Supressed " ++ toString n ++ " additional " ++
        ((if p.isError then "error" else "warning") ++
          (if 1 < n then "s" else "")) := by
  rw [CodePrinter_t.getSupressedMessage, if_neg (by omega)]
  by_cases h1 : 1 < n
  · rw [if_pos (by omega), if_pos h1]
    cases hp : p.isError <;> simp
  · rw [if_neg (by omega), if_neg h1]
    cases hp : p.isError <;> simp

/-- Witness for claim C4's theorem at severity error and dropped count 2:
the hypothesis 0 < 2 holds and the footer comes out pluralized with the
code's spelling. -/
theorem getSupressedMessage_format_witness :
    ((0 : Int) < 2) ∧
    (errorCode "E").getSupressedMessage 2 =
      "Supressed " ++ toString (2 : Int) ++ " additional " ++
        ((if (errorCode "E").isError then "error" else "warning") ++
          (if (1 : Int) < 2 then "s" else "")) :=
  ⟨by decide, getSupressedMessage_format (errorCode "E") 2 (by decide)⟩

/-- Claim C5: a reference on the primary origin's file and line is inserted
into the origin-line set and the per-file map is left untouched; moreover
withSource preserves both the index bound and the disjointness of the
origin-line set and the per-file map, and withMessage — which does not touch
either set — preserves them as well, so the two sets stay disjoint after
every insertion operation. -/
theorem withSource_routing_and_disjoint (p : CodePrinter_t)
    (source : CodeSource_t) (hb : indexBounded p) (hd : setsDisjoint p) :
    ((source.origin.file == p.origin.file &&
        onSameLine source.origin p.origin) = true →
      (source.withIndex p.sourceIndex) ∈ (p.withSource source).originLineSources ∧
      (p.withSource source).sources = p.sources) ∧
    indexBounded (p.withSource source) ∧
    setsDisjoint (p.withSource source) ∧
    (∀ o msg, indexBounded (p.withMessage o msg) ∧
      setsDisjoint (p.withMessage o msg)) := by
  obtain ⟨hb1, hb2⟩ := hb
  refine ?_
  by_cases hc : (source.origin.file == p.origin.file &&
      onSameLine source.origin p.origin) = true
  · simp only [CodePrinter_t.withSource, if_pos hc]
    have hnew : ∀ y ∈ p.originLineSources,
        keyEq (source.withIndex p.sourceIndex) y = false := by
      intro y hy
      exact keyEq_eq_false_of_index_ne
        (by have := hb1 y hy; simp [CodeSource_t.withIndex]; omega)
    refine ⟨fun _ => ⟨self_mem_csInsert hnew, by trivial⟩, ⟨?_, ?_⟩, ?_, ?_⟩
    · intro s hs
      rcases mem_csInsert hs with h1 | h1
      · subst h1; simp [CodeSource_t.withIndex]
      · have := hb1 s h1; simp; omega
    · intro fb hfb s hs
      have := hb2 fb hfb s hs; simp; omega
    · intro s hs fb hfb hmem
      rcases mem_csInsert hs with h1 | h1
      · subst h1
        have := hb2 fb hfb _ hmem
        simp [CodeSource_t.withIndex] at this
      · exact hd s h1 fb hfb hmem
    · exact fun o msg => ⟨⟨hb1, hb2⟩, hd⟩
  · simp only [CodePrinter_t.withSource, if_neg hc]
    refine ⟨fun h => absurd h hc, ⟨?_, ?_⟩, ?_, ?_⟩
    · intro s hs
      have := hb1 s hs; simp; omega
    · intro fb hfb s hs
      rcases mem_mapInsert hfb hs with h1 | ⟨fb', hfb', hs'⟩
      · subst h1; simp [CodeSource_t.withIndex]
      · have := hb2 fb' hfb' s hs'; simp; omega
    · intro s hs fb hfb hmem
      rcases mem_mapInsert hfb hmem with h1 | ⟨fb', hfb', hs'⟩
      · subst h1
        have := hb1 _ hs
        simp [CodeSource_t.withIndex] at this
      · exact hd s hs fb' hfb' hs'
    · exact fun o msg => ⟨⟨hb1, hb2⟩, hd⟩

/-- Witness for claim C5's theorem: on a freshly primed printer with empty
reference sets, both invariants hold and a reference on the origin's file
and line is routed into the origin-line set with the map untouched. -/
theorem withSource_routing_and_disjoint_witness :
    indexBounded routedPrinter ∧ setsDisjoint routedPrinter ∧
    (((routedSource.origin.file == routedPrinter.origin.file &&
        onSameLine routedSource.origin routedPrinter.origin) = true →
      (routedSource.withIndex routedPrinter.sourceIndex) ∈
          (routedPrinter.withSource routedSource).originLineSources ∧
      (routedPrinter.withSource routedSource).sources = routedPrinter.sources) ∧
    indexBounded (routedPrinter.withSource routedSource) ∧
    setsDisjoint (routedPrinter.withSource routedSource) ∧
    (∀ o msg, indexBounded (routedPrinter.withMessage o msg) ∧
      setsDisjoint (routedPrinter.withMessage o msg))) := by
  have hb : indexBounded routedPrinter := by
    constructor
    · intro s hs
      simp [routedPrinter, CodePrinter_t.withMessage, errorCode, codePrinter] at hs
    · intro fb hfb
      simp [routedPrinter, CodePrinter_t.withMessage, errorCode, codePrinter] at hfb
  have hd : setsDisjoint routedPrinter := by
    intro s hs
    simp [routedPrinter, CodePrinter_t.withMessage, errorCode, codePrinter] at hs
  exact ⟨hb, hd, withSource_routing_and_disjoint routedPrinter routedSource hb hd⟩

/-- Claim C6 counterexample: dividerPrinter has an empty origin-line set, a
nonempty origin-file bucket, and a same-file reference on another line lying
before the primary origin (so the primary is not chronologically first, as
the code itself computes) — the claim's two conditions hold, yet no divider
is emitted. -/
theorem needsDivider_missing_origin_line_conjunct :
    dividerPrinter.needsDivider = false ∧
    (lookupBucket dividerPrinter.sources dividerPrinter.origin.file).isEmpty = false ∧
    dividerPrinter.originIsFirstSource = false := by
  decide

/-- Claim C6 (corrected): the divider is emitted if and only if (a) the
origin file's bucket beyond the origin-line set is nonempty, (b) the primary
origin is not chronologically first — some bucket reference off the
primary's line lies at positive distance before it — and additionally (c)
the origin-line reference set is nonempty.  The claim as stated omits
conjunct (c). -/
theorem needsDivider_iff (p : CodePrinter_t) :
    p.needsDivider = true ↔
      ((∃ s ∈ lookupBucket p.sources p.origin.file,
          onSameLine s.origin p.origin = false ∧
            distanceTo p.origin s.origin > 0) ∧
        p.originLineSources ≠ [] ∧
        lookupBucket p.sources p.origin.file ≠ []) := by
  simp only [CodePrinter_t.needsDivider, CodePrinter_t.originIsFirstSource,
    Bool.and_eq_true, Bool.not_eq_true']
  rw [originFirstCheck_eq_false_iff]
  simp [List.isEmpty_iff]
  tauto

/-- Claim C7: the suppression step is idempotent — after one application the
total bucket size fits the budget, so a second application returns the same
kept reference sets and reports zero additional supressed references. -/
theorem supressSources_idempotent (p : CodePrinter_t) :
    (p.supressSources.1).supressSources = (p.supressSources.1, 0) := by
  cases p with
  | mk isError code origin message ols srcs idx =>
    simp only [CodePrinter_t.supressSources]
    rw [supressLoop_eq_self_of_le _ _ (bucketTotal_supressLoop_le _ _)]

/-- Claim C8: for every positive maximum line number the computed sidebar
width is the base 3 (left pad, one digit, right pad) plus one extra column
per decimal digit beyond the first; in particular maxLine 5 gives width 3,
42 gives 4 and 523 gives 5. -/
theorem getSidebarWidth_digits :
    (∀ n, 0 < n → getSidebarWidth n = 3 + (decimalDigitCount n - 1)) ∧
    getSidebarWidth 5 = 3 ∧ getSidebarWidth 42 = 4 ∧ getSidebarWidth 523 = 5 := by
  constructor
  · intro n hn
    rw [getSidebarWidth, sidebarLoop_eq_add, decimalDigitCount_pos_eq n hn]
    omega
  · refine ⟨?_, ?_, ?_⟩ <;> simp [getSidebarWidth, sidebarLoop]

/-- Witness for claim C8's theorem at maxLine 523: the hypothesis 0 < 523
holds and the width is the base 3 plus the two extra digits. -/
theorem getSidebarWidth_digits_witness :
    0 < 523 ∧ getSidebarWidth 523 = 3 + (decimalDigitCount 523 - 1) :=
  ⟨by decide, getSidebarWidth_digits.1 523 (by decide)⟩

/-- Claim C9: print raises exactly when the primary origin is invalid: the
OCCA_ERROR guard runs before suppression or any section rendering, and it is
the only fatal condition — every printer with a valid origin reaches the ok
branch no matter what the reference sets hold. -/
theorem print_error_iff_invalid_origin (p : CodePrinter_t) :
    (∃ e, p.print = Except.error e) ↔ p.origin.valid = false := by
  rw [CodePrinter_t.print]
  cases hv : p.origin.valid <;> simp [hv]

/-- Claim C10 counterexample: six references on the origin's line survive
supressSources untouched, so the total number of non-primary references
rendered — origin-line set plus per-file map — exceeds the display budget
of 5. -/
theorem origin_line_sources_exceed_budget :
    DEFAULT_MAX_ERRORS_DISPLAYED <
      (originLinePrinter.supressSources).1.originLineSources.length +
        bucketTotal ((originLinePrinter.supressSources).1.sources) := by
  decide

/-- Claim C10 (corrected): the suppression budget bounds only the per-file
map: after supressSources at most DEFAULT_MAX_ERRORS_DISPLAYED references
remain across all file buckets.  The origin-line set is exempt from the
budget, which is what refutes the claim's bound on the combined total. -/
theorem supressSources_bounds_file_map (p : CodePrinter_t) :
    bucketTotal ((p.supressSources).1.sources) ≤ DEFAULT_MAX_ERRORS_DISPLAYED := by
  simpa [CodePrinter_t.supressSources] using
    bucketTotal_supressLoop_le DEFAULT_MAX_ERRORS_DISPLAYED p.sources
